import Mathlib

/-!
Verification of the user-model subsystem of the auto-lease backend
(`src/models/userModel.js`): password validation, password hashing hooks,
password-change timestamps, reset-token issuance, and the dealership
application state machine.

Cryptographic primitives (bcrypt, SHA-256) are external libraries; their
outputs are modelled symbolically as a free algebra `SVal` of string
literals and hash applications, so that distinct hash applications are
distinct values and a hash is never equal to a plaintext literal.
-/

namespace AutoLease

/-- Symbolic value stored in a string field: either a literal string, a
bcrypt hash (with its cost factor) of a value, or a SHA-256 hex digest of a
value. Models the outputs of `bcrypt.hash` and
`crypto.createHash("sha256")...digest("hex")`. -/
inductive SVal where
  | lit (s : String)
  | bcrypt (cost : Nat) (v : SVal)
  | sha256 (v : SVal)
deriving DecidableEq, Repr

/-- Modelled from the spec: `DEALERSHIP_APPLICATION_STATUS` is imported from
`src/utils/constants.js`, which is not among the sources. The spec (§4.4)
names the statuses PENDING, APPROVED, REJECTED; we take the names themselves
as the (distinct) string values. -/
def APPROVED : String := "APPROVED"

/-- Modelled from the spec: see `APPROVED`. -/
def PENDING : String := "PENDING"

/-- Modelled from the spec: see `APPROVED`. -/
def REJECTED : String := "REJECTED"

/-- Modelled from the spec: `AppError` (`src/utils/appError.js`, not among
the sources) carries a message and an HTTP status code; the spec (§7) maps a
403 `AppError` raised by a state-machine guard to `ForbiddenTransitionError`,
and schema-validation failures to `ValidationError`. -/
inductive UErr where
  | ValidationError (msg : String)
  | HttpError (msg : String) (statusCode : Nat)
deriving DecidableEq, Repr

/-- An error is the spec's `ForbiddenTransitionError` when it is an
`AppError` with HTTP status 403 (spec §7). -/
def UErr.IsForbiddenTransition : UErr → Prop
  | .HttpError _ code => code = 403
  | .ValidationError _ => False

/-- The persisted user document: the fields of `userSchema` that the
verified operations read or write. `password` and the token fields hold
symbolic values (`SVal`); timestamps are epoch milliseconds. -/
structure UserState where
  name : String
  email : String
  password : SVal
  passwordConfirm : Option SVal
  passwordChangedAt : Option Int
  passwordResetToken : Option SVal
  passwordResetTokenExpires : Option Int
  dealershipApplicationStatus : Option String
deriving DecidableEq, Repr

/-- Embeds `userSchema.methods.dealershipApplicationResponse(status)`: throws
`AppError("Cannot modify an already application", 403)` when the current
status is APPROVED, otherwise assigns the `status` argument and saves with
`validateBeforeSave: false` (no validation runs on the saved document). -/
def dealershipApplicationResponse (u : UserState) (status : String) :
    Except UErr UserState :=
  if u.dealershipApplicationStatus = some APPROVED then
    .error (.HttpError "Cannot modify an already application" 403)
  else
    .ok { u with dealershipApplicationStatus := some status }

/-- Embeds `userSchema.methods.revokeDealershipApplication()`: throws
`AppError("Only approved applications can be revoked", 403)` unless the
current status is APPROVED, otherwise sets status REJECTED and saves with
`validateBeforeSave: false`. -/
def revokeDealershipApplication (u : UserState) : Except UErr UserState :=
  if u.dealershipApplicationStatus ≠ some APPROVED then
    .error (.HttpError "Only approved applications can be revoked" 403)
  else
    .ok { u with dealershipApplicationStatus := some REJECTED }

/-- The document state after a call to `dealershipApplicationResponse`: on a
thrown error the document is left as it was. -/
def respondFinalState (u : UserState) (status : String) : UserState :=
  match dealershipApplicationResponse u status with
  | .ok u' => u'
  | .error _ => u

/-- The document state after a call to `revokeDealershipApplication`: on a
thrown error the document is left as it was. -/
def revokeFinalState (u : UserState) : UserState :=
  match revokeDealershipApplication u with
  | .ok u' => u'
  | .error _ => u

/-- True of the characters the password regex counts as uppercase: the
`[A-Z]` class. -/
def isUpperAZ (c : Char) : Bool := 'A' ≤ c && c ≤ 'Z'

/-- True of the characters in the regex class `[!@#$%^&*]` (the password
policy's symbol set). -/
def isPasswordSymbol (c : Char) : Bool :=
  c = '!' || c = '@' || c = '#' || c = '$' || c = '%' || c = '^' || c = '&' || c = '*'

/-- True of the characters in the regex class `[A-Za-z\d!@#$%^&*]`: the only
characters the password regex lets appear at all. -/
def isPasswordClassChar (c : Char) : Bool :=
  isUpperAZ c || ('a' ≤ c && c ≤ 'z') || ('0' ≤ c && c ≤ '9') || isPasswordSymbol c

/-- The password validator of `userSchema.password`: the semantics of the
anchored regex `^(?=.*[A-Z])(?=.*[!@#$%^&*])[A-Za-z\d!@#$%^&*]{8,50}$` — some
uppercase letter, some symbol from `!@#$%^&*`, and the whole string is 8 to
50 characters drawn from `[A-Za-z\d!@#$%^&*]`. -/
def passwordValidator (value : String) : Bool :=
  value.data.any isUpperAZ &&
  value.data.any isPasswordSymbol &&
  value.data.all isPasswordClassChar &&
  8 ≤ value.data.length && value.data.length ≤ 50

/-- The password policy exactly as the spec states it (§4.3): at least one
uppercase letter, at least one symbol from the defined set, length 8 to 50.
Stated from the spec's words, for comparison with `passwordValidator`; note
it has no whole-string character-class restriction. -/
def specPasswordPolicy (value : String) : Bool :=
  value.data.any isUpperAZ &&
  value.data.any isPasswordSymbol &&
  8 ≤ value.data.length && value.data.length ≤ 50

/-- Whitespace trimming of a character list: drops leading and trailing
whitespace, the semantics of the `trim: true` schema option (JavaScript
`String.prototype.trim`). -/
def trimChars (cs : List Char) : List Char :=
  ((cs.dropWhile Char.isWhitespace).reverse.dropWhile Char.isWhitespace).reverse

/-- Whitespace trimming on strings, via `trimChars`. -/
def jsTrim (s : String) : String :=
  ⟨trimChars s.data⟩

/-- Splits a character list at every occurrence of the separator character;
the semantics of `String.prototype.split` / `splitOn` with a one-character
separator. -/
def splitOnChar (sep : Char) : List Char → List (List Char)
  | [] => [[]]
  | c :: rest =>
    match splitOnChar sep rest with
    | [] => [[c]]
    | g :: gs => if c = sep then [] :: g :: gs else (c :: g) :: gs

/-- The email validator of `userSchema.email`: the semantics of the anchored
regex `^[^\s@]+@[^\s@]+\.[^\s@]+$` — exactly one `@`, no whitespace, a
nonempty local part, and after the `@` a `.` that has at least one character
on each side. -/
def emailValidator (value : String) : Bool :=
  match splitOnChar '@' value.data with
  | [before, after] =>
    !before.isEmpty &&
    before.all (fun c => !c.isWhitespace) &&
    after.all (fun c => !c.isWhitespace) &&
    ((after.drop 1).dropLast.any (fun c => c = '.'))
  | _ => false

/-- The input to `User.create`: the user-supplied draft fields (plaintext
password and its confirmation included). -/
structure UserDraft where
  name : String
  email : String
  password : String
  passwordConfirm : String
deriving DecidableEq, Repr

/-- Document validation run by mongoose before a plain `save` of a new
document: the `userSchema` field validators in declaration order — `name`
(required, trimmed, length 4 to 50), `email` (required, format), `password`
(required, trimmed, complexity regex), `passwordConfirm` (required, must
equal `password`). Returns the first failure's message. -/
def validateDraft (d : UserDraft) : Option String :=
  if !(4 ≤ (jsTrim d.name).data.length) then some "name cannot be less than 4 characters"
  else if !((jsTrim d.name).data.length ≤ 50) then some "name cannot be more than 50 characters"
  else if !(emailValidator (jsTrim d.email)) then some "Invalid email address"
  else if (jsTrim d.password).data.isEmpty then some "Password is required"
  else if !(passwordValidator (jsTrim d.password)) then some "Invalid password"
  else if d.passwordConfirm.isEmpty then some "Confirm password is required"
  else if d.passwordConfirm ≠ jsTrim d.password then some "Passwords do not match"
  else none

/-- First `userSchema.pre("save")` hook: if the password path is modified,
replace `password` with `bcrypt.hash(password, 13)` and unset
`passwordConfirm`. -/
def preSavePasswordHash (isPasswordModified : Bool) (u : UserState) : UserState :=
  if isPasswordModified then
    { u with password := SVal.bcrypt 13 u.password, passwordConfirm := none }
  else u

/-- Second `userSchema.pre("save")` hook: if the document is not new and the
password path is modified, set `passwordChangedAt` to `Date.now() - 1000`
(`now` is epoch milliseconds). -/
def preSaveChangedAt (isNew isPasswordModified : Bool) (now : Int)
    (u : UserState) : UserState :=
  if !isNew && isPasswordModified then { u with passwordChangedAt := some (now - 1000) }
  else u

/-- Creation of a user (`User.create(draft)` / `new User(draft).save()`):
mongoose validates the draft against the schema, then runs the two
`pre("save")` hooks on the new document (a new document has every assigned
path modified, `password` included) and persists the result. -/
def create (now : Int) (d : UserDraft) : Except UErr UserState :=
  match validateDraft d with
  | some msg => .error (.ValidationError msg)
  | none =>
    let u0 : UserState :=
      { name := jsTrim d.name
        email := jsTrim d.email
        password := SVal.lit (jsTrim d.password)
        passwordConfirm := some (SVal.lit d.passwordConfirm)
        passwordChangedAt := none
        passwordResetToken := none
        passwordResetTokenExpires := none
        dealershipApplicationStatus := none }
    .ok (preSaveChangedAt true true now (preSavePasswordHash true u0))

/-- Embeds `userSchema.methods.passwordChangedAfterJwt(jwtIsa)`: when
`passwordChangedAt` is set, returns `passwordChangedAt.getTime() / 1000 >
jwtIsa` (JavaScript real division of the epoch-millisecond timestamp, modelled
exactly in `Rat`); otherwise false. `jwtIsa` is the token's issued-at in
epoch seconds. -/
def passwordChangedAfterJwt (u : UserState) (jwtIsa : Int) : Bool :=
  match u.passwordChangedAt with
  | some t => decide ((t : Rat) / 1000 > (jwtIsa : Rat))
  | none => false

/-- Embeds `bcrypt.compare(plainPassword, hashedPassword)` of the bcrypt library,
modelled symbolically: true exactly when the stored value is a bcrypt hash
whose preimage is the literal plaintext. Per the library contract it resolves
to a boolean and never rejects: a mismatched or malformed stored value
(anything that is not such a hash) yields false. -/
def bcryptCompare (plainPassword : String) (hashedPassword : SVal) : Bool :=
  match hashedPassword with
  | .bcrypt _ v => v = SVal.lit plainPassword
  | _ => false

/-- Embeds `userSchema.methods.comparePassword(plainPassword, hashedPassword)`:
delegates to `bcrypt.compare`. -/
def comparePassword (plainPassword : String) (hashedPassword : SVal) : Bool :=
  bcryptCompare plainPassword hashedPassword

/-- Modelled from the spec: `createTimeStampInEpoch` lives in
`src/utils/utils.js`, which is not among the sources. The spec (§4.2) says
the expiry is "now + configurable window, default 10 minutes"; we model it
as `now` (epoch milliseconds) plus `min` minutes. -/
def createTimeStampInEpoch (now : Int) (min : Int) : Int :=
  now + min * 60 * 1000

/-- Embeds `userSchema.methods.generateAndSavePasswordResetToken()`: draws a random
32-byte hex token (`token`, supplied here as an input since it comes from the
entropy source), stores its SHA-256 hex digest in `passwordResetToken` and
`createTimeStampInEpoch({ min: 10 })` in `passwordResetTokenExpires`, saves
with `validateBeforeSave: false`, and returns the raw token. -/
def generateAndSavePasswordResetToken (now : Int) (token : String)
    (u : UserState) : String × UserState :=
  (token,
   { u with
     passwordResetToken := some (SVal.sha256 (SVal.lit token))
     passwordResetTokenExpires := some (createTimeStampInEpoch now 10) })

/-- A concrete user document used by witnesses. -/
def baseUser : UserState :=
  { name := "Jane Roe"
    email := "jane@example.com"
    password := SVal.bcrypt 13 (SVal.lit "Abcdef1!")
    passwordConfirm := none
    passwordChangedAt := none
    passwordResetToken := none
    passwordResetTokenExpires := none
    dealershipApplicationStatus := none }

/-- A concrete user document with a PENDING dealership application. -/
def exUserPending : UserState :=
  { baseUser with dealershipApplicationStatus := some PENDING }

/-- A concrete user document with an APPROVED dealership application. -/
def exUserApproved : UserState :=
  { baseUser with dealershipApplicationStatus := some APPROVED }

/-- A concrete user document whose password was changed at epoch-millisecond
5500. -/
def exUserChanged : UserState :=
  { baseUser with passwordChangedAt := some 5500 }

/-- C1: on a user whose `dealershipApplicationStatus` is APPROVED,
`dealershipApplicationResponse` fails with a 403 `AppError` (the spec's
`ForbiddenTransitionError`) for every requested decision, and the document's
status remains APPROVED. -/
theorem respond_on_approved_fails (u : UserState) (status : String)
    (h : u.dealershipApplicationStatus = some APPROVED) :
    (∃ e, dealershipApplicationResponse u status = .error e ∧
      e.IsForbiddenTransition) ∧
    (respondFinalState u status).dealershipApplicationStatus = some APPROVED := by
  refine ⟨⟨.HttpError "Cannot modify an already application" 403, ?_, rfl⟩, ?_⟩
  · simp [dealershipApplicationResponse, h]
  · simp [respondFinalState, dealershipApplicationResponse, h]

/-- Witness for C1 at a concrete APPROVED user and decision REJECTED. -/
theorem respond_on_approved_fails_witness :
    (∃ e, dealershipApplicationResponse exUserApproved REJECTED = .error e ∧
      e.IsForbiddenTransition) ∧
    (respondFinalState exUserApproved REJECTED).dealershipApplicationStatus =
      some APPROVED :=
  respond_on_approved_fails exUserApproved REJECTED rfl

/-- C2: `revokeDealershipApplication` succeeds exactly on an APPROVED user,
yielding status REJECTED; on every other current status it fails with a 403
`AppError` (the spec's `ForbiddenTransitionError`) and leaves the document
unchanged. -/
theorem revoke_succeeds_iff_approved (u : UserState) :
    (u.dealershipApplicationStatus = some APPROVED →
      revokeDealershipApplication u =
        .ok { u with dealershipApplicationStatus := some REJECTED }) ∧
    (u.dealershipApplicationStatus ≠ some APPROVED →
      (∃ e, revokeDealershipApplication u = .error e ∧
        e.IsForbiddenTransition) ∧
      revokeFinalState u = u) := by
  constructor
  · intro h
    simp [revokeDealershipApplication, h]
  · intro h
    refine ⟨⟨.HttpError "Only approved applications can be revoked" 403, ?_, rfl⟩, ?_⟩
    · simp [revokeDealershipApplication, h]
    · simp [revokeFinalState, revokeDealershipApplication, h]

/-- Witness for C2: revoking a concrete APPROVED user succeeds with status
REJECTED; revoking a concrete PENDING user fails and changes nothing. -/
theorem revoke_succeeds_iff_approved_witness :
    revokeDealershipApplication exUserApproved =
      .ok { exUserApproved with dealershipApplicationStatus := some REJECTED } ∧
    ((∃ e, revokeDealershipApplication exUserPending = .error e ∧
        e.IsForbiddenTransition) ∧
      revokeFinalState exUserPending = exUserPending) :=
  ⟨(revoke_succeeds_iff_approved exUserApproved).1 rfl,
   (revoke_succeeds_iff_approved exUserPending).2 (by decide)⟩

/-- C3 counterexample: on a PENDING user, `dealershipApplicationResponse`
with the decision PENDING returns without error and the resulting
`dealershipApplicationStatus` is PENDING — not APPROVED or REJECTED — so a
`respondToApplication` call can set the status to PENDING. -/
theorem respond_can_set_pending_counterexample :
    exUserPending.dealershipApplicationStatus = some PENDING ∧
    dealershipApplicationResponse exUserPending PENDING =
      .ok { exUserPending with dealershipApplicationStatus := some PENDING } ∧
    (respondFinalState exUserPending PENDING).dealershipApplicationStatus =
      some PENDING ∧
    PENDING ≠ APPROVED ∧ PENDING ≠ REJECTED := by
  refine ⟨rfl, rfl, rfl, by decide, by decide⟩

/-- C3 amended: whenever `dealershipApplicationResponse` returns without
error, the resulting `dealershipApplicationStatus` is exactly the supplied
decision argument — so it is APPROVED or REJECTED precisely when the
decision is, and a decision of PENDING does set the status to PENDING. -/
theorem respond_ok_sets_decision (u u' : UserState) (d : String)
    (h : dealershipApplicationResponse u d = .ok u') :
    u'.dealershipApplicationStatus = some d := by
  unfold dealershipApplicationResponse at h
  split at h
  · exact absurd h (by simp)
  · cases h
    rfl

/-- Witness for the amended C3 at a concrete PENDING user and decision
APPROVED. -/
theorem respond_ok_sets_decision_witness :
    ({ exUserPending with dealershipApplicationStatus := some APPROVED }
      : UserState).dealershipApplicationStatus = some APPROVED :=
  respond_ok_sets_decision exUserPending
    { exUserPending with dealershipApplicationStatus := some APPROVED }
    APPROVED rfl

/-- C10: on any user whose status is not APPROVED (absent included),
`dealershipApplicationResponse` succeeds for every string argument and
persists that argument verbatim — the save skips document validation, so
values outside the schema's enum are stored. -/
theorem respond_not_approved_persists_verbatim (u : UserState) (s : String)
    (h : u.dealershipApplicationStatus ≠ some APPROVED) :
    dealershipApplicationResponse u s =
      .ok { u with dealershipApplicationStatus := some s } := by
  simp [dealershipApplicationResponse, h]

/-- Witness for C10: a user who never applied, given a value outside the
schema enum, ends up with that value stored. -/
theorem respond_not_approved_persists_verbatim_witness :
    dealershipApplicationResponse baseUser "NOT_A_VALID_STATUS" =
      .ok { baseUser with dealershipApplicationStatus := some "NOT_A_VALID_STATUS" } ∧
    "NOT_A_VALID_STATUS" ∉ [APPROVED, PENDING, REJECTED] :=
  ⟨respond_not_approved_persists_verbatim baseUser "NOT_A_VALID_STATUS" (by decide),
   by decide⟩

/-- A concrete draft whose password meets the spec's three conditions but is
rejected by the schema regex (the underscore is outside the regex's
character class). -/
def badDraft : UserDraft :=
  { name := "Jane Roe"
    email := "a@b.com"
    password := "Abcdefg!_"
    passwordConfirm := "Abcdefg!_" }

/-- If the (trimmed) password fails `passwordValidator`, draft validation
reports some failure. -/
theorem validateDraft_bad_password (d : UserDraft)
    (h : passwordValidator (jsTrim d.password) = false) :
    ∃ msg, validateDraft d = some msg := by
  unfold validateDraft
  split_ifs <;> simp_all

/-- C4 counterexample: the password "Abcdefg!_" has an uppercase letter, a
symbol from the defined set, and length 9, so the spec's policy accepts it;
`passwordValidator` rejects it, and `create` on a draft carrying it fails
with a `ValidationError`. -/
theorem password_policy_counterexample :
    specPasswordPolicy "Abcdefg!_" = true ∧
    passwordValidator "Abcdefg!_" = false ∧
    create 0 badDraft = .error (.ValidationError "Invalid password") := by
  refine ⟨by decide, by decide, by rfl⟩

/-- C4 amended: `passwordValidator` accepts exactly the strings of 8 to 50
characters drawn entirely from `[A-Za-z0-9!@#$%^&*]` that contain at least
one uppercase letter and at least one symbol from `!@#$%^&*`; and whenever a
draft's (trimmed) password fails this validator, `create` fails with a
`ValidationError`. -/
theorem passwordValidator_characterization (v : String) (d : UserDraft) :
    (passwordValidator v = true ↔
      ((∃ c ∈ v.data, isUpperAZ c) ∧ (∃ c ∈ v.data, isPasswordSymbol c) ∧
       (∀ c ∈ v.data, isPasswordClassChar c) ∧
       8 ≤ v.data.length ∧ v.data.length ≤ 50)) ∧
    (passwordValidator (jsTrim d.password) = false →
      ∃ msg, create 0 d = .error (.ValidationError msg)) := by
  constructor
  · simp [passwordValidator, List.any_eq_true, List.all_eq_true, and_assoc]
  · intro h
    obtain ⟨msg, hm⟩ := validateDraft_bad_password d h
    exact ⟨msg, by unfold create; rw [hm]⟩

/-- Witness for C4's amended claim at the concrete draft `badDraft`. -/
theorem passwordValidator_characterization_witness :
    ∃ msg, create 0 badDraft = .error (.ValidationError msg) :=
  (passwordValidator_characterization "Abcdefg!_" badDraft).2 (by decide)

/-- C5: a save on which the password path is modified (creation included)
persists `bcrypt.hash(password, 13)` in place of the plaintext, removes
`passwordConfirm` from the stored document, and the stored password is never
a plaintext literal. -/
theorem preSavePasswordHash_spec (u : UserState) :
    (preSavePasswordHash true u).password = SVal.bcrypt 13 u.password ∧
    (preSavePasswordHash true u).passwordConfirm = none ∧
    ∀ s, (preSavePasswordHash true u).password ≠ SVal.lit s := by
  refine ⟨by simp [preSavePasswordHash], by simp [preSavePasswordHash], ?_⟩
  intro s h
  simp [preSavePasswordHash] at h

/-- Witness for C5 at the concrete user `baseUser` and plaintext literal
"Abcdef1!". -/
theorem preSavePasswordHash_spec_witness :
    (preSavePasswordHash true baseUser).password = SVal.bcrypt 13 baseUser.password ∧
    (preSavePasswordHash true baseUser).passwordConfirm = none ∧
    (preSavePasswordHash true baseUser).password ≠ SVal.lit "Abcdef1!" :=
  ⟨(preSavePasswordHash_spec baseUser).1, (preSavePasswordHash_spec baseUser).2.1,
   (preSavePasswordHash_spec baseUser).2.2 "Abcdef1!"⟩

/-- C6: `generateAndSavePasswordResetToken` returns the raw token while
persisting only its SHA-256 digest (never the raw value) in
`passwordResetToken`, with `passwordResetTokenExpires` set to now plus 10
minutes; both fields are written, set, in the same operation. -/
theorem generateAndSavePasswordResetToken_spec (now : Int) (token : String)
    (u : UserState) :
    (generateAndSavePasswordResetToken now token u).1 = token ∧
    (generateAndSavePasswordResetToken now token u).2.passwordResetToken =
      some (SVal.sha256 (SVal.lit token)) ∧
    (generateAndSavePasswordResetToken now token u).2.passwordResetTokenExpires =
      some (now + 10 * 60 * 1000) ∧
    (∀ s, (generateAndSavePasswordResetToken now token u).2.passwordResetToken ≠
      some (SVal.lit s)) ∧
    (generateAndSavePasswordResetToken now token u).2.passwordResetToken.isSome ∧
    (generateAndSavePasswordResetToken now token u).2.passwordResetTokenExpires.isSome := by
  refine ⟨rfl, rfl, rfl, ?_, rfl, rfl⟩
  intro s h
  simp [generateAndSavePasswordResetToken] at h

/-- Witness for C6 at now = 0, raw token "tok", user `baseUser`. -/
theorem generateAndSavePasswordResetToken_spec_witness :
    (generateAndSavePasswordResetToken 0 "tok" baseUser).1 = "tok" ∧
    (generateAndSavePasswordResetToken 0 "tok" baseUser).2.passwordResetToken =
      some (SVal.sha256 (SVal.lit "tok")) ∧
    (generateAndSavePasswordResetToken 0 "tok" baseUser).2.passwordResetTokenExpires =
      some (0 + 10 * 60 * 1000) ∧
    (generateAndSavePasswordResetToken 0 "tok" baseUser).2.passwordResetToken ≠
      some (SVal.lit "tok") ∧
    (generateAndSavePasswordResetToken 0 "tok" baseUser).2.passwordResetToken.isSome ∧
    (generateAndSavePasswordResetToken 0 "tok" baseUser).2.passwordResetTokenExpires.isSome :=
  ⟨(generateAndSavePasswordResetToken_spec 0 "tok" baseUser).1,
   (generateAndSavePasswordResetToken_spec 0 "tok" baseUser).2.1,
   (generateAndSavePasswordResetToken_spec 0 "tok" baseUser).2.2.1,
   (generateAndSavePasswordResetToken_spec 0 "tok" baseUser).2.2.2.1 "tok",
   (generateAndSavePasswordResetToken_spec 0 "tok" baseUser).2.2.2.2.1,
   (generateAndSavePasswordResetToken_spec 0 "tok" baseUser).2.2.2.2.2⟩

/-- C7: `passwordChangedAfterJwt` returns false when `passwordChangedAt` is
absent, and true whenever the issued-at time (epoch seconds) strictly
predates the stored `passwordChangedAt` (epoch milliseconds). -/
theorem passwordChangedAfterJwt_spec (u : UserState) (jwtIsa t : Int) :
    (u.passwordChangedAt = none → passwordChangedAfterJwt u jwtIsa = false) ∧
    (u.passwordChangedAt = some t → jwtIsa * 1000 < t →
      passwordChangedAfterJwt u jwtIsa = true) := by
  constructor
  · intro h
    simp [passwordChangedAfterJwt, h]
  · intro h hlt
    simp only [passwordChangedAfterJwt, h]
    apply decide_eq_true
    rw [gt_iff_lt, lt_div_iff₀ (by norm_num : (0 : Rat) < 1000)]
    exact_mod_cast hlt

/-- Witness for C7: a user who never changed their password yields false at
issued-at 5; a user whose password changed at millisecond 5500 yields true
at issued-at 5 (5000 ms predates 5500 ms). -/
theorem passwordChangedAfterJwt_spec_witness :
    passwordChangedAfterJwt baseUser 5 = false ∧
    passwordChangedAfterJwt exUserChanged 5 = true :=
  ⟨(passwordChangedAfterJwt_spec baseUser 5 0).1 rfl,
   (passwordChangedAfterJwt_spec exUserChanged 5 5500).2 rfl (by decide)⟩

/-- C8: the second pre-save hook stamps `passwordChangedAt` exactly when the
document is not new and the password path is modified, the stamped value
`now - 1000` is strictly earlier than `now`, and on a new document
(creation) the hook leaves the document untouched. -/
theorem preSaveChangedAt_spec (u : UserState) (isNew isMod : Bool) (now : Int) :
    (preSaveChangedAt isNew isMod now u).passwordChangedAt =
      (if !isNew && isMod then some (now - 1000) else u.passwordChangedAt) ∧
    now - 1000 < now ∧
    preSaveChangedAt true isMod now u = u := by
  refine ⟨?_, by omega, by simp [preSaveChangedAt]⟩
  cases h : !isNew && isMod <;> simp [preSaveChangedAt, h]

/-- Witness for C8 at a non-new document with a modified password and
now = 0, and at a new document. -/
theorem preSaveChangedAt_spec_witness :
    (preSaveChangedAt false true 0 baseUser).passwordChangedAt =
      (if !false && true then some ((0 : Int) - 1000) else baseUser.passwordChangedAt) ∧
    (0 : Int) - 1000 < 0 ∧
    preSaveChangedAt true true 0 baseUser = baseUser :=
  preSaveChangedAt_spec baseUser false true 0

/-- C9: `comparePassword` is a total boolean function of the plaintext and
the stored value (the bcrypt library's `compare` resolves, never rejects),
and it returns true exactly when the stored value is a bcrypt hash of the
plaintext — every mismatch, a malformed (non-hash) stored value included,
yields false. -/
theorem comparePassword_total_spec (plain : String) (stored : SVal) :
    comparePassword plain stored = true ↔
      ∃ cost, stored = SVal.bcrypt cost (SVal.lit plain) := by
  unfold comparePassword bcryptCompare
  cases stored <;> simp

/-- Witness for C9 at a matching hash, a mismatched hash, and a malformed
stored value. -/
theorem comparePassword_total_spec_witness :
    (comparePassword "Abcdef1!" (SVal.bcrypt 13 (SVal.lit "Abcdef1!")) = true ↔
      ∃ cost, SVal.bcrypt 13 (SVal.lit "Abcdef1!") =
        SVal.bcrypt cost (SVal.lit "Abcdef1!")) ∧
    (comparePassword "Abcdef1!" (SVal.lit "not a bcrypt hash") = true ↔
      ∃ cost, SVal.lit "not a bcrypt hash" =
        SVal.bcrypt cost (SVal.lit "Abcdef1!")) :=
  ⟨comparePassword_total_spec "Abcdef1!" (SVal.bcrypt 13 (SVal.lit "Abcdef1!")),
   comparePassword_total_spec "Abcdef1!" (SVal.lit "not a bcrypt hash")⟩

end AutoLease
